import Mathlib

/-!
# Verification of the TradeX wallet services (`src/services/supabaseService.ts`)

Shallow embedding of the deposit/withdrawal/settings/profile services of the
repository.  The hosted database is modelled as an explicit state (`DB`)
holding the `profiles`, `deposits` and `withdrawals` tables of
`supabase/schema.sql`; every service method becomes a Lean function from the
state (plus its arguments) to the next state, returning errors explicitly
where the TypeScript throws.  Monetary amounts (`DECIMAL(15,2)` in the schema,
JS numbers in the client) are modelled as integers; no claim in question
depends on fractional or floating-point behaviour.

Each `await supabase...` round trip in the source commits one observable store
mutation, so multi-write operations (`withdrawalService.create`,
`withdrawalService.reject`, `withdrawalService.fail`, `depositService.approve`)
are defined as compositions of named single-write steps; the intermediate
states of those compositions are exactly the observable intermediate states of
the source.
-/

namespace TradeX

/-- Column `profiles.account_status`: `CHECK (account_status IN ('active','hold'))`. -/
inductive AccountStatus where
  | active
  | hold
deriving DecidableEq, Repr

/-- Column `profiles.kyc_status`: `CHECK (kyc_status IN ('pending','verified','rejected'))`. -/
inductive KycStatus where
  | pending
  | verified
  | rejected
deriving DecidableEq, Repr

/-- A row of the `profiles` table (fields the services touch). -/
structure Profile where
  id : String
  balance : Int
  account_status : AccountStatus
  hold_reason : Option String
  kyc_status : KycStatus
  kyc_document : Option String
deriving DecidableEq, Repr

/-- Column `deposits.status`: `CHECK (status IN ('pending','approved','rejected'))`. -/
inductive DStatus where
  | pending
  | approved
  | rejected
deriving DecidableEq, Repr

/-- A row of the `deposits` table (fields the services touch). -/
structure Deposit where
  id : String
  user_id : String
  amount : Int
  screenshot : Option String
  status : DStatus
  admin_note : Option String
deriving DecidableEq, Repr

/-- Column `withdrawals.status`:
`CHECK (status IN ('pending','processing','held','completed','rejected','failed'))`. -/
inductive WStatus where
  | pending
  | processing
  | held
  | completed
  | rejected
  | failed
deriving DecidableEq, Repr

/-- Destination bank details captured at withdrawal creation. -/
structure BankDetails where
  bank_name : String
  account_number : String
  ifsc_code : String
  account_holder_name : String
deriving DecidableEq, Repr

/-- A row of the `withdrawals` table (fields the services touch). -/
structure Withdrawal where
  id : String
  user_id : String
  amount : Int
  net_amount : Int
  charges : Int
  bank : BankDetails
  status : WStatus
  admin_note : Option String
  admin_transaction_ref : Option String
  payment_proof : Option String
  processing_end_time : Option Int
deriving DecidableEq, Repr

/-- The database state the services operate on. -/
structure DB where
  profiles : List Profile
  deposits : List Deposit
  withdrawals : List Withdrawal
deriving DecidableEq, Repr

/-- Errors the service layer can throw.  `notFound` is the error
`.single()` produces when no row matches; `accountOnHold` and
`insufficientBalance` are the two `new Error(...)` throws of
`withdrawalService.create`. -/
inductive Err where
  | notFound
  | accountOnHold
  | insufficientBalance
deriving DecidableEq, Repr

/-- Read `supabase.from('profiles').select(...).eq('id', uid).single()`. -/
def findProfile (db : DB) (uid : String) : Option Profile :=
  db.profiles.find? (fun p => p.id == uid)

/-- Read `supabase.from('withdrawals').select(...).eq('id', wid).single()`
(used only by the model to observe state; the admin paths update blindly). -/
def findWithdrawal (db : DB) (wid : String) : Option Withdrawal :=
  db.withdrawals.find? (fun w => w.id == wid)

/-- Observe a deposit row by id. -/
def findDeposit (db : DB) (did : String) : Option Deposit :=
  db.deposits.find? (fun d => d.id == did)

/-- Write `supabase.from('profiles').update({ balance: b }).eq('id', uid)`. -/
def setBalance (db : DB) (uid : String) (b : Int) : DB :=
  { db with profiles :=
      db.profiles.map (fun p => if p.id == uid then { p with balance := b } else p) }

/-- Balance of a profile, when it exists. -/
def balanceOf (db : DB) (uid : String) : Option Int :=
  (findProfile db uid).map Profile.balance

/-- JS `x || null` on an optional string: `undefined` and `''` both give `null`. -/
def jsOrNull (s : Option String) : Option String :=
  match s with
  | none => none
  | some v => if v == "" then none else some v

/-! ## depositService -/

/-- Method `depositService.create`: inserts a `pending` deposit row.  The source
performs no account-status or balance check on this path.  `newId` stands for
the UUID the database generates for the inserted row. -/
def depositCreate (db : DB) (userId : String) (amount : Int)
    (screenshot : Option String) (newId : String) : DB × Deposit :=
  let d : Deposit :=
    { id := newId, user_id := userId, amount := amount, screenshot := screenshot
      status := .pending, admin_note := none }
  ({ db with deposits := db.deposits ++ [d] }, d)

/-- First write of `depositService.approve`:
`update({ status: 'approved' }).eq('id', depositId)` — unconditional. -/
def depositApproveStatusStep (db : DB) (depositId : String) : DB :=
  { db with deposits :=
      db.deposits.map (fun d =>
        if d.id == depositId then { d with status := .approved } else d) }

/-- Method `depositService.approve`: sets the deposit's status to `approved`, reads
the profile's balance, writes back `balance + amount`.  The deposit status
write happens before the profile read; if the profile read fails the status
write has already been committed (hence the `DB × Except` result shape). -/
def depositApprove (db : DB) (depositId userId : String) (amount : Int) :
    DB × Except Err Unit :=
  let db1 := depositApproveStatusStep db depositId
  match findProfile db1 userId with
  | none => (db1, .error .notFound)
  | some p => (setBalance db1 userId (p.balance + amount), .ok ())

/-- Method `depositService.reject`: sets status `rejected` and the admin note;
no balance effect. -/
def depositReject (db : DB) (depositId : String) (adminNote : Option String) : DB :=
  { db with deposits :=
      db.deposits.map (fun d =>
        if d.id == depositId then { d with status := .rejected, admin_note := adminNote }
        else d) }

/-! ## withdrawalService -/

/-- Method `withdrawalService.create`: reads the profile (`balance, account_status`),
throws `'Account is on hold. Please contact support.'` when on hold, throws
`'Insufficient balance'` when `balance < amount`, otherwise inserts a
`pending` withdrawal row and then debits `balance - amount` (computed from the
balance read at the start).  `newId` stands for the generated row id.  The
returned `DB` is the state after the operation, which is the input state
unchanged on every throwing path (all throws precede the first write). -/
def withdrawalCreate (db : DB) (userId : String) (amount netAmount charges : Int)
    (bank : BankDetails) (newId : String) : DB × Except Err Withdrawal :=
  match findProfile db userId with
  | none => (db, .error .notFound)
  | some p =>
    if p.account_status = .hold then (db, .error .accountOnHold)
    else if p.balance < amount then (db, .error .insufficientBalance)
    else
      let w : Withdrawal :=
        { id := newId, user_id := userId, amount := amount, net_amount := netAmount
          charges := charges, bank := bank, status := .pending, admin_note := none
          admin_transaction_ref := none, payment_proof := none
          processing_end_time := none }
      let db1 := { db with withdrawals := db.withdrawals ++ [w] }
      (setBalance db1 userId (p.balance - amount), .ok w)

/-- Method `withdrawalService.approve`: unconditional
`update({ status: 'completed', admin_transaction_ref: transactionRef || null })`.
Touches only the `withdrawals` table. -/
def withdrawalApprove (db : DB) (withdrawalId : String)
    (transactionRef : Option String) : DB :=
  { db with withdrawals :=
      db.withdrawals.map (fun w =>
        if w.id == withdrawalId then
          { w with status := .completed, admin_transaction_ref := jsOrNull transactionRef }
        else w) }

/-- First write of `withdrawalService.reject`: unconditional
`update({ status: 'rejected', admin_note: adminNote })` — no check of the
record's current status. -/
def rejectStatusStep (db : DB) (withdrawalId : String) (adminNote : Option String) : DB :=
  { db with withdrawals :=
      db.withdrawals.map (fun w =>
        if w.id == withdrawalId then { w with status := .rejected, admin_note := adminNote }
        else w) }

/-- Second phase of `withdrawalService.reject` / `fail`: read the profile's
balance and write back `balance + amount` (the refund). -/
def refundStep (db : DB) (userId : String) (amount : Int) : DB × Except Err Unit :=
  match findProfile db userId with
  | none => (db, .error .notFound)
  | some p => (setBalance db userId (p.balance + amount), .ok ())

/-- Method `withdrawalService.reject`: status write, then refund.  The `amount`
refunded is a caller-supplied argument, not read from the record. -/
def withdrawalReject (db : DB) (withdrawalId : String) (amount : Int)
    (userId : String) (adminNote : Option String) : DB × Except Err Unit :=
  refundStep (rejectStatusStep db withdrawalId adminNote) userId amount

/-- Method `withdrawalService.hold`: unconditional `update({ status: 'held' })`. -/
def withdrawalHold (db : DB) (withdrawalId : String) : DB :=
  { db with withdrawals :=
      db.withdrawals.map (fun w =>
        if w.id == withdrawalId then { w with status := .held } else w) }

/-- Method `withdrawalService.startProcessing`: unconditional
`update({ status: 'processing', processing_end_time: now + durationMinutes })`. -/
def startProcessing (db : DB) (withdrawalId : String) (now durationMinutes : Int) : DB :=
  { db with withdrawals :=
      db.withdrawals.map (fun w =>
        if w.id == withdrawalId then
          { w with status := .processing, processing_end_time := some (now + durationMinutes) }
        else w) }

/-- First write of `withdrawalService.fail`: unconditional
`update({ status: 'failed', admin_note: reason })`. -/
def failStatusStep (db : DB) (withdrawalId : String) (reason : String) : DB :=
  { db with withdrawals :=
      db.withdrawals.map (fun w =>
        if w.id == withdrawalId then { w with status := .failed, admin_note := some reason }
        else w) }

/-- Method `withdrawalService.fail`: status write with the reason, then refund. -/
def withdrawalFail (db : DB) (withdrawalId : String) (amount : Int)
    (userId : String) (reason : String) : DB × Except Err Unit :=
  refundStep (failStatusStep db withdrawalId reason) userId amount

/-- Method `withdrawalService.uploadPaymentProof`: unconditional
`update({ payment_proof: proof, status: 'completed' })` — no check of the
record's current status, no profile access. -/
def uploadPaymentProof (db : DB) (withdrawalId : String) (proof : String) : DB :=
  { db with withdrawals :=
      db.withdrawals.map (fun w =>
        if w.id == withdrawalId then
          { w with payment_proof := some proof, status := .completed }
        else w) }

/-! ## profileService -/

/-- Method `profileService.updateBalance`: writes the caller-supplied `newBalance`
verbatim — no sign check, no reconciliation. -/
def updateBalance (db : DB) (userId : String) (newBalance : Int) : DB :=
  setBalance db userId newBalance

/-- Method `profileService.setAccountStatus`: sets `account_status`, and the hold
reason when the new status is `hold` (cleared otherwise). -/
def setAccountStatus (db : DB) (userId : String) (status : AccountStatus)
    (reason : Option String) : DB :=
  { db with profiles :=
      db.profiles.map (fun p =>
        if p.id == userId then
          { p with account_status := status
                   hold_reason := if status = .hold then reason else none }
        else p) }

/-! ## settingsService

`settingsService.get` is the one method whose store-error behaviour the
claims single out, so its store round trip is a parameter: the caller of the
model supplies the outcome of
`supabase.from('settings').select('value').eq('key', key).single()`. -/

/-- A failure of the underlying store (a `PostgrestError`), carrying its
human-readable message. -/
structure StoreErr where
  message : String
deriving DecidableEq, Repr

/-- Method `settingsService.get`: on a store error it logs (`console.error`) and
returns `null`; only on success does it return the value.  The outer `Except`
is the promise outcome: the source never rejects here. -/
def settingsGet (store : Except StoreErr String) : Except StoreErr (Option String) :=
  match store with
  | .error _ => .ok none
  | .ok v => .ok (some v)

/-- Method `settingsService.update`: `if (error) throw error; return { success: true }` —
a store failure is rethrown to the caller. -/
def settingsUpdate (store : Except StoreErr Unit) : Except StoreErr Unit :=
  match store with
  | .error e => .error e
  | .ok _ => .ok ()

/-- Method `settingsService.getAll`: `if (error) throw error;` then folds the rows
into a key/value list — a store failure is rethrown to the caller. -/
def settingsGetAll (store : Except StoreErr (List (String × String))) :
    Except StoreErr (List (String × String)) :=
  match store with
  | .error e => .error e
  | .ok rows => .ok rows

/-! ## Helper lemmas on keyed list updates

Every store write in the services is `update(...).eq('<key>', k)`, i.e. a map
over the table that rewrites exactly the rows whose key matches.  The two
lemmas below describe `find?` after such a map: the matched row is rewritten,
rows with a different key are untouched. -/

/-- A keyed update rewrites the row `find?` locates, provided the update
preserves the key. -/
theorem find?_map_update {α : Type} (key : α → String) (f : α → α)
    (hkey : ∀ x, key (f x) = key x) (l : List α) (k : String) (a : α)
    (ha : l.find? (fun x => key x == k) = some a) :
    (l.map (fun x => if key x == k then f x else x)).find? (fun x => key x == k)
      = some (f a) := by
  induction l with
  | nil => simp at ha
  | cons x xs ih =>
    by_cases hx : (key x == k) = true
    · have hxa : x = a := by
        simp only [List.find?_cons, hx] at ha
        exact Option.some.inj ha
      subst hxa
      simp only [List.map_cons, if_pos hx]
      simp only [List.find?_cons, hkey, hx]
    · have hxf : (key x == k) = false := by simpa using hx
      simp only [List.find?_cons, hxf] at ha
      simp only [List.map_cons, if_neg hx]
      simp only [List.find?_cons, hxf]
      exact ih ha

/-- A keyed update leaves `find?` for every other key unchanged, provided the
update preserves the key. -/
theorem find?_map_update_frame {α : Type} (key : α → String) (f : α → α)
    (hkey : ∀ x, key (f x) = key x) (l : List α) (k k2 : String)
    (hne : k2 ≠ k) :
    (l.map (fun x => if key x == k then f x else x)).find? (fun x => key x == k2)
      = l.find? (fun x => key x == k2) := by
  induction l with
  | nil => rfl
  | cons x xs ih =>
    by_cases hx : (key x == k) = true
    · have hk : key x = k := by simpa using hx
      have h2 : (key x == k2) = false := by
        simp only [hk, beq_eq_false_iff_ne]
        exact Ne.symm hne
      have h2f : (key (f x) == k2) = false := by rw [hkey]; exact h2
      simp only [List.map_cons, if_pos hx]
      simp only [List.find?_cons, h2f, h2]
      exact ih
    · by_cases h2 : (key x == k2) = true
      · simp only [List.map_cons, if_neg hx]
        simp only [List.find?_cons, h2]
      · have h2f : (key x == k2) = false := by simpa using h2
        simp only [List.map_cons, if_neg hx]
        simp only [List.find?_cons, h2f]
        exact ih

/-- Writing a balance rewrites exactly the targeted profile's balance field. -/
theorem findProfile_setBalance_self (db : DB) (uid : String) (b : Int) (p : Profile)
    (hp : findProfile db uid = some p) :
    findProfile (setBalance db uid b) uid = some { p with balance := b } :=
  find?_map_update Profile.id (fun q => { q with balance := b }) (fun _ => rfl)
    db.profiles uid p hp

/-- After `setBalance`, the targeted profile's balance reads back as written. -/
theorem balanceOf_setBalance_self (db : DB) (uid : String) (b : Int) (p : Profile)
    (hp : findProfile db uid = some p) :
    balanceOf (setBalance db uid b) uid = some b := by
  unfold balanceOf
  rw [findProfile_setBalance_self db uid b p hp]
  rfl

/-! ## Concrete fixtures used by the scenario theorems -/

/-- Bank details used by the concrete scenarios. -/
def bank0 : BankDetails :=
  { bank_name := "HDFC", account_number := "123456", ifsc_code := "HDFC0000001"
    account_holder_name := "User One" }

/-- An active profile with balance 1000. -/
def profile1000 : Profile :=
  { id := "u", balance := 1000, account_status := .active, hold_reason := none
    kyc_status := .pending, kyc_document := none }

/-- Store holding just the active profile with balance 1000. -/
def db1000 : DB := { profiles := [profile1000], deposits := [], withdrawals := [] }

/-- Store whose single profile is on hold (balance 0). -/
def dbHold : DB :=
  { profiles := [{ id := "u", balance := 0, account_status := .hold
                   hold_reason := some "investigation", kyc_status := .pending
                   kyc_document := none }]
    deposits := [], withdrawals := [] }

/-- A withdrawal already in the terminal state `rejected` (its refund has
already been applied once: the profile is back at 1000). -/
def wRejected : Withdrawal :=
  { id := "w1", user_id := "u", amount := 200, net_amount := 150, charges := 50
    bank := bank0, status := .rejected, admin_note := some "first rejection"
    admin_transaction_ref := none, payment_proof := none, processing_end_time := none }

/-- Store with the already-rejected withdrawal and the refunded profile. -/
def dbRejected : DB :=
  { profiles := [profile1000], deposits := [], withdrawals := [wRejected] }

/-- Store with a profile at balance 0 and one `pending` deposit of 500. -/
def dbDeposit : DB :=
  { profiles := [{ profile1000 with balance := 0 }]
    deposits := [{ id := "d1", user_id := "u", amount := 500, screenshot := none
                   status := .pending, admin_note := none }]
    withdrawals := [] }

/-- The state reached from `db1000` by creating the scenario withdrawal
(gross 200, net 150, charges 50): balance 800, one pending withdrawal. -/
def dbPending : DB := (withdrawalCreate db1000 "u" 200 150 50 bank0 "w1").1

/-- The withdrawal record created in the scenario: id `w1`, gross 200,
net 150, charges 50, status `pending`. -/
def wPending : Withdrawal :=
  { id := "w1", user_id := "u", amount := 200, net_amount := 150, charges := 50
    bank := bank0, status := .pending, admin_note := none
    admin_transaction_ref := none, payment_proof := none
    processing_end_time := none }

end TradeX

deriving instance DecidableEq for Except

namespace TradeX

/-! ## Further helper lemmas -/

/-- The refund phase (read balance, write back `balance + amount`) computed
when the profile exists. -/
theorem refundStep_eq (db : DB) (uid : String) (amount : Int) (p : Profile)
    (hp : findProfile db uid = some p) :
    refundStep db uid amount = (setBalance db uid (p.balance + amount), .ok ()) := by
  simp only [refundStep, hp]

/-- The status write of `withdrawalService.reject` rewrites exactly the
targeted record's `status` and `admin_note`. -/
theorem findWithdrawal_rejectStatusStep (db : DB) (wid : String)
    (note : Option String) (w : Withdrawal)
    (hw : findWithdrawal db wid = some w) :
    findWithdrawal (rejectStatusStep db wid note) wid
      = some { w with status := .rejected, admin_note := note } :=
  find?_map_update Withdrawal.id
    (fun v => { v with status := .rejected, admin_note := note })
    (fun _ => rfl) db.withdrawals wid w hw

/-- The status write of `withdrawalService.fail` rewrites exactly the targeted
record's `status` and `admin_note`. -/
theorem findWithdrawal_failStatusStep (db : DB) (wid reason : String)
    (w : Withdrawal) (hw : findWithdrawal db wid = some w) :
    findWithdrawal (failStatusStep db wid reason) wid
      = some { w with status := .failed, admin_note := some reason } :=
  find?_map_update Withdrawal.id
    (fun v => { v with status := .failed, admin_note := some reason })
    (fun _ => rfl) db.withdrawals wid w hw

/-- Computation of `depositService.approve` when the profile exists: the
unconditional status write followed by the balance credit. -/
theorem depositApprove_eq (db : DB) (did uid : String) (a : Int) (p : Profile)
    (hp : findProfile (depositApproveStatusStep db did) uid = some p) :
    depositApprove db did uid a
      = (setBalance (depositApproveStatusStep db did) uid (p.balance + a), .ok ()) := by
  simp only [depositApprove, hp]

/-- Writing a balance keeps every profile balance non-negative when the
written value is non-negative. -/
theorem setBalance_nonneg (db : DB) (uid : String) (b : Int)
    (hnn : ∀ p ∈ db.profiles, 0 ≤ p.balance) (hb : 0 ≤ b) :
    ∀ q ∈ (setBalance db uid b).profiles, 0 ≤ q.balance := by
  intro q hq
  unfold setBalance at hq
  simp only [List.mem_map] at hq
  obtain ⟨x, hx, rfl⟩ := hq
  by_cases h : (x.id == uid) = true
  · rw [if_pos h]
    exact hb
  · rw [if_neg h]
    exact hnn x hx

/-- The refund phase keeps every profile balance non-negative when the
refunded amount is non-negative. -/
theorem refundStep_nonneg (db : DB) (uid : String) (amount : Int)
    (hnn : ∀ p ∈ db.profiles, 0 ≤ p.balance) (hamt : 0 ≤ amount) :
    ∀ q ∈ (refundStep db uid amount).1.profiles, 0 ≤ q.balance := by
  cases hfp : findProfile db uid with
  | none =>
    intro q hq
    simp only [refundStep, hfp] at hq
    exact hnn q hq
  | some p =>
    intro q hq
    simp only [refundStep, hfp] at hq
    refine setBalance_nonneg db uid _ hnn ?_ q hq
    have hpmem : p ∈ db.profiles := List.mem_of_find?_eq_some hfp
    have := hnn p hpmem
    omega

/-! ## Claim C1 -/

/-- Claim C1, counterexample: the claim quantifies over every profile, but on
a profile whose `account_status` is `hold` (balance 0) a withdrawal request of
amount 1 — strictly above the balance — does not fail with
`InsufficientBalance`: `withdrawalService.create` checks the hold status first
and throws `AccountOnHold`. -/
theorem c1_counterexample :
    (findProfile dbHold "u").map Profile.balance = some 0
      ∧ (withdrawalCreate dbHold "u" 1 1 0 bank0 "wx").2
          ≠ .error .insufficientBalance
      ∧ (withdrawalCreate dbHold "u" 1 1 0 bank0 "wx").2
          = .error .accountOnHold := by
  decide

/-- Claim C1, amended: for every profile whose account status is `active`, a
withdrawal-creation request of amount strictly greater than the current
balance fails with `InsufficientBalance` and produces no state change — the
resulting store is the input store, so no withdrawal row is created and no
debit is applied. -/
theorem c1_insufficient_balance_no_state_change (db : DB) (uid : String)
    (p : Profile) (amount netAmount charges : Int) (bank : BankDetails)
    (nid : String)
    (hp : findProfile db uid = some p)
    (ha : p.account_status = .active)
    (hlt : p.balance < amount) :
    withdrawalCreate db uid amount netAmount charges bank nid
      = (db, .error .insufficientBalance) := by
  have hh : ¬ p.account_status = AccountStatus.hold := by
    rw [ha]
    intro h
    cases h
  simp only [withdrawalCreate, hp]
  rw [if_neg hh, if_pos hlt]

/-- Claim C1, witness: the amended theorem applied to the active profile with
balance 1000 and a request of 2000. -/
theorem c1_witness :
    withdrawalCreate db1000 "u" 2000 1950 50 bank0 "wx"
      = (db1000, .error .insufficientBalance) :=
  c1_insufficient_balance_no_state_change db1000 "u" profile1000 2000 1950 50
    bank0 "wx" (by decide) (by decide) (by decide)

/-! ## Claim C2 -/

/-- Claim C2, counterexample: `withdrawalService.reject` applied to a
withdrawal already in the terminal state `rejected` — whose refund has already
been applied once, the balance being back at 1000 — succeeds instead of
failing with an `InvalidTransition` error, and refunds the amount a second
time: the balance becomes 1200. -/
theorem c2_counterexample :
    (findWithdrawal dbRejected "w1").map Withdrawal.status
        = some WStatus.rejected
      ∧ balanceOf dbRejected "u" = some 1000
      ∧ (withdrawalReject dbRejected "w1" 200 "u" (some "second")).2 = .ok ()
      ∧ balanceOf (withdrawalReject dbRejected "w1" 200 "u" (some "second")).1 "u"
          = some 1200 := by
  decide

/-- Claim C2, amended: no admin transition checks the record's current status
(the service layer has no `InvalidTransition` error at all).  `reject` and
`fail` succeed from every state, terminal states included: they
unconditionally overwrite the record's status and admin note and refund the
caller-supplied amount on every call, so invoking them on an already-terminal
withdrawal refunds the amount again. -/
theorem c2_no_terminal_state_guard (db : DB) (wid uid : String) (amount : Int)
    (note : Option String) (reason : String) (p : Profile) (w : Withdrawal)
    (hp : findProfile db uid = some p)
    (hw : findWithdrawal db wid = some w) :
    (withdrawalReject db wid amount uid note).2 = .ok ()
      ∧ balanceOf (withdrawalReject db wid amount uid note).1 uid
          = some (p.balance + amount)
      ∧ findWithdrawal (rejectStatusStep db wid note) wid
          = some { w with status := .rejected, admin_note := note }
      ∧ (withdrawalFail db wid amount uid reason).2 = .ok ()
      ∧ balanceOf (withdrawalFail db wid amount uid reason).1 uid
          = some (p.balance + amount)
      ∧ findWithdrawal (failStatusStep db wid reason) wid
          = some { w with status := .failed, admin_note := some reason } := by
  have hp1 : findProfile (rejectStatusStep db wid note) uid = some p := hp
  have hp2 : findProfile (failStatusStep db wid reason) uid = some p := hp
  have h1 : withdrawalReject db wid amount uid note
      = (setBalance (rejectStatusStep db wid note) uid (p.balance + amount), .ok ()) :=
    refundStep_eq _ uid amount p hp1
  have h2 : withdrawalFail db wid amount uid reason
      = (setBalance (failStatusStep db wid reason) uid (p.balance + amount), .ok ()) :=
    refundStep_eq _ uid amount p hp2
  refine ⟨by rw [h1], ?_, findWithdrawal_rejectStatusStep db wid note w hw,
    by rw [h2], ?_, findWithdrawal_failStatusStep db wid reason w hw⟩
  · rw [h1]
    exact balanceOf_setBalance_self _ uid _ p hp1
  · rw [h2]
    exact balanceOf_setBalance_self _ uid _ p hp2

/-- Claim C2, witness: the amended theorem applied to the already-rejected
withdrawal fixture. -/
theorem c2_witness :
    (withdrawalReject dbRejected "w1" 200 "u" (some "again")).2 = .ok ()
      ∧ balanceOf (withdrawalReject dbRejected "w1" 200 "u" (some "again")).1 "u"
          = some (1000 + 200)
      ∧ findWithdrawal (rejectStatusStep dbRejected "w1" (some "again")) "w1"
          = some { wRejected with status := .rejected, admin_note := some "again" }
      ∧ (withdrawalFail dbRejected "w1" 200 "u" "late fail").2 = .ok ()
      ∧ balanceOf (withdrawalFail dbRejected "w1" 200 "u" "late fail").1 "u"
          = some (1000 + 200)
      ∧ findWithdrawal (failStatusStep dbRejected "w1" "late fail") "w1"
          = some { wRejected with status := .failed, admin_note := some "late fail" } :=
  c2_no_terminal_state_guard dbRejected "w1" "u" 200 (some "again") "late fail"
    profile1000 wRejected (by decide) (by decide)

/-! ## Claim C3 -/

/-- Claim C3, counterexample: approving the pending deposit of 500 twice
credits the balance twice — after the first call the balance is 500, and the
retried call for the same deposit id succeeds again and leaves 1000, not
500. -/
theorem c3_counterexample :
    balanceOf (depositApprove dbDeposit "d1" "u" 500).1 "u" = some 500
      ∧ (depositApprove (depositApprove dbDeposit "d1" "u" 500).1 "d1" "u" 500).2
          = .ok ()
      ∧ balanceOf
          (depositApprove (depositApprove dbDeposit "d1" "u" 500).1 "d1" "u" 500).1 "u"
          = some 1000 := by
  decide

/-- Claim C3, amended: `depositService.approve` increases the owning profile's
balance by exactly the amount on every call — it is not idempotent per deposit
id: a retried approval for the same deposit id credits the amount a second
time. -/
theorem c3_approve_credits_every_call (db : DB) (did uid : String) (a : Int)
    (p : Profile) (hp : findProfile db uid = some p) :
    balanceOf (depositApprove db did uid a).1 uid = some (p.balance + a)
      ∧ balanceOf (depositApprove (depositApprove db did uid a).1 did uid a).1 uid
          = some (p.balance + a + a) := by
  have hp1 : findProfile (depositApproveStatusStep db did) uid = some p := hp
  have h1 := depositApprove_eq db did uid a p hp1
  have hp2 : findProfile (depositApprove db did uid a).1 uid
      = some { p with balance := p.balance + a } := by
    rw [h1]
    exact findProfile_setBalance_self _ uid _ p hp1
  have hp3 : findProfile (depositApproveStatusStep (depositApprove db did uid a).1 did) uid
      = some { p with balance := p.balance + a } := hp2
  have h2 := depositApprove_eq (depositApprove db did uid a).1 did uid a
    { p with balance := p.balance + a } hp3
  constructor
  · rw [h1]
    exact balanceOf_setBalance_self _ uid _ p hp1
  · rw [h2]
    exact balanceOf_setBalance_self _ uid _ _ hp3

/-- Claim C3, witness: the amended theorem applied to the pending-deposit
fixture (balance 0, amount 500). -/
theorem c3_witness :
    balanceOf (depositApprove dbDeposit "d1" "u" 500).1 "u" = some (0 + 500)
      ∧ balanceOf
          (depositApprove (depositApprove dbDeposit "d1" "u" 500).1 "d1" "u" 500).1 "u"
          = some (0 + 500 + 500) :=
  c3_approve_credits_every_call dbDeposit "d1" "u" 500
    { profile1000 with balance := 0 } (by decide)

/-! ## Claim C4 -/

/-- Claim C4, counterexample: on the profile whose `account_status` is `hold`,
`depositService.create` does not fail with `AccountOnHold` — it performs no
account-status check at all and inserts the pending deposit row. -/
theorem c4_counterexample :
    (findProfile dbHold "u").map Profile.account_status = some AccountStatus.hold
      ∧ (depositCreate dbHold "u" 500 none "d9").1.deposits
          = [{ id := "d9", user_id := "u", amount := 500, screenshot := none
               status := .pending, admin_note := none }] := by
  decide

/-- Claim C4, amended: for a profile on hold, `withdrawalService.create` fails
with `AccountOnHold` and leaves the store unchanged, but
`depositService.create` performs no hold check: it succeeds and appends the
pending deposit row regardless of the account status. -/
theorem c4_hold_blocks_only_withdrawals (db : DB) (uid : String) (p : Profile)
    (amount netAmount charges damount : Int) (bank : BankDetails)
    (wnid dnid : String) (screenshot : Option String)
    (hp : findProfile db uid = some p)
    (hh : p.account_status = .hold) :
    withdrawalCreate db uid amount netAmount charges bank wnid
        = (db, .error .accountOnHold)
      ∧ (depositCreate db uid damount screenshot dnid).1.deposits
          = db.deposits ++ [{ id := dnid, user_id := uid, amount := damount
                              screenshot := screenshot, status := .pending
                              admin_note := none }] := by
  constructor
  · simp only [withdrawalCreate, hp]
    rw [if_pos hh]
  · rfl

/-- Claim C4, witness: the amended theorem applied to the held profile. -/
theorem c4_witness :
    withdrawalCreate dbHold "u" 100 50 50 bank0 "wx"
        = (dbHold, .error .accountOnHold)
      ∧ (depositCreate dbHold "u" 500 none "d9").1.deposits
          = dbHold.deposits ++ [{ id := "d9", user_id := "u", amount := 500
                                  screenshot := none, status := .pending
                                  admin_note := none }] :=
  c4_hold_blocks_only_withdrawals dbHold "u"
    { id := "u", balance := 0, account_status := .hold
      hold_reason := some "investigation", kyc_status := .pending
      kyc_document := none }
    100 50 50 500 bank0 "wx" "d9" none (by decide) (by decide)

/-! ## Claim C5 -/

/-- Claim C5: starting from balance 1000 with withdrawal charge 50, creating a
withdrawal of gross 200 (net 150) leaves balance 800 and a `pending` record
with `net_amount` 150; after `startProcessing` the status is `processing`;
after `fail` with reason "bank rejected" the balance is restored to 1000 and
the record's `admin_note` equals "bank rejected" (and its status is
`failed`). -/
theorem c5_scenario_fail_restores_balance :
    balanceOf dbPending "u" = some 800
      ∧ (findWithdrawal dbPending "w1").map Withdrawal.status = some WStatus.pending
      ∧ (findWithdrawal dbPending "w1").map Withdrawal.net_amount = some 150
      ∧ (findWithdrawal (startProcessing dbPending "w1" 0 30) "w1").map Withdrawal.status
          = some WStatus.processing
      ∧ (withdrawalFail (startProcessing dbPending "w1" 0 30) "w1" 200 "u"
          "bank rejected").2 = .ok ()
      ∧ balanceOf (withdrawalFail (startProcessing dbPending "w1" 0 30) "w1" 200 "u"
          "bank rejected").1 "u" = some 1000
      ∧ (findWithdrawal (withdrawalFail (startProcessing dbPending "w1" 0 30) "w1" 200 "u"
          "bank rejected").1 "w1").map Withdrawal.admin_note
          = some (some "bank rejected")
      ∧ (findWithdrawal (withdrawalFail (startProcessing dbPending "w1" 0 30) "w1" 200 "u"
          "bank rejected").1 "w1").map Withdrawal.status = some WStatus.failed := by
  decide

/-! ## Claim C6 -/

/-- Claim C6, counterexample: `withdrawalService.reject` commits the terminal
status write and the refund as two separate store round trips, status first.
On the reachable state with balance 800 and the pending withdrawal of 200, the
state after the first write — which `withdrawalReject` passes through, as the
first conjunct records definitionally — already shows status `rejected` while
the balance is still 800; the refund to 1000 only lands in the final state.
So a terminal status is observable before the refund has completed. -/
theorem c6_counterexample :
    withdrawalReject dbPending "w1" 200 "u" (some "no")
        = refundStep (rejectStatusStep dbPending "w1" (some "no")) "u" 200
      ∧ (findWithdrawal (rejectStatusStep dbPending "w1" (some "no")) "w1").map
          Withdrawal.status = some WStatus.rejected
      ∧ balanceOf (rejectStatusStep dbPending "w1" (some "no")) "u" = some 800
      ∧ balanceOf (withdrawalReject dbPending "w1" 200 "u" (some "no")).1 "u"
          = some 1000 := by
  decide

/-- Claim C6, amended: the debit and refund are not atomic with the status
writes.  `reject` is the composition of a status write and a separate refund
write in that order, so between the two there is an observable intermediate
state in which the record already carries the terminal status `rejected` (with
the admin note) while the owning profile's balance is still its pre-refund
value; the refund is only visible in the final state. -/
theorem c6_terminal_status_visible_before_refund (db : DB) (wid uid : String)
    (amount : Int) (note : Option String) (p : Profile) (w : Withdrawal)
    (hp : findProfile db uid = some p)
    (hw : findWithdrawal db wid = some w) :
    withdrawalReject db wid amount uid note
        = refundStep (rejectStatusStep db wid note) uid amount
      ∧ findWithdrawal (rejectStatusStep db wid note) wid
          = some { w with status := .rejected, admin_note := note }
      ∧ balanceOf (rejectStatusStep db wid note) uid = some p.balance
      ∧ balanceOf (withdrawalReject db wid amount uid note).1 uid
          = some (p.balance + amount) := by
  have hp1 : findProfile (rejectStatusStep db wid note) uid = some p := hp
  have h1 := refundStep_eq (rejectStatusStep db wid note) uid amount p hp1
  refine ⟨rfl, findWithdrawal_rejectStatusStep db wid note w hw, ?_, ?_⟩
  · unfold balanceOf
    rw [hp1]
    rfl
  · show balanceOf (refundStep (rejectStatusStep db wid note) uid amount).1 uid
        = some (p.balance + amount)
    rw [h1]
    exact balanceOf_setBalance_self _ uid _ p hp1

/-- Claim C6, witness: the amended theorem applied to the reachable state with
balance 800 and the pending withdrawal of 200. -/
theorem c6_witness :
    withdrawalReject dbPending "w1" 200 "u" (some "fraud")
        = refundStep (rejectStatusStep dbPending "w1" (some "fraud")) "u" 200
      ∧ findWithdrawal (rejectStatusStep dbPending "w1" (some "fraud")) "w1"
          = some { wPending with status := .rejected, admin_note := some "fraud" }
      ∧ balanceOf (rejectStatusStep dbPending "w1" (some "fraud")) "u" = some 800
      ∧ balanceOf (withdrawalReject dbPending "w1" 200 "u" (some "fraud")).1 "u"
          = some (800 + 200) :=
  c6_terminal_status_visible_before_refund dbPending "w1" "u" 200 (some "fraud")
    { profile1000 with balance := 800 } wPending
    (by decide) (by decide)

/-! ## Claim C7 -/

/-- Claim C7: `withdrawalService.approve` touches only the `withdrawals`
table: the `profiles` and `deposits` tables are returned unchanged (so every
profile's balance and every other profile field is unchanged), the targeted
record differs only in `status` (now `completed`) and
`admin_transaction_ref`, and every other withdrawal record is unchanged. -/
theorem c7_approve_no_balance_effect (db : DB) (wid : String)
    (ref : Option String) (w : Withdrawal)
    (hw : findWithdrawal db wid = some w) :
    (withdrawalApprove db wid ref).profiles = db.profiles
      ∧ (withdrawalApprove db wid ref).deposits = db.deposits
      ∧ (∀ uid, balanceOf (withdrawalApprove db wid ref) uid = balanceOf db uid)
      ∧ findWithdrawal (withdrawalApprove db wid ref) wid
          = some { w with status := .completed
                          admin_transaction_ref := jsOrNull ref }
      ∧ ∀ wid2, wid2 ≠ wid →
          findWithdrawal (withdrawalApprove db wid ref) wid2
            = findWithdrawal db wid2 := by
  refine ⟨rfl, rfl, fun uid => rfl, ?_, ?_⟩
  · exact find?_map_update Withdrawal.id
      (fun v => { v with status := .completed
                         admin_transaction_ref := jsOrNull ref })
      (fun _ => rfl) db.withdrawals wid w hw
  · intro wid2 hne
    exact find?_map_update_frame Withdrawal.id
      (fun v => { v with status := .completed
                         admin_transaction_ref := jsOrNull ref })
      (fun _ => rfl) db.withdrawals wid wid2 hne

/-- Claim C7, witness: approving the fixture withdrawal with a transaction
reference changes neither table of profiles nor deposits nor the balance. -/
theorem c7_witness :
    (withdrawalApprove dbPending "w1" (some "TXN1")).profiles = dbPending.profiles
      ∧ (withdrawalApprove dbPending "w1" (some "TXN1")).deposits = dbPending.deposits
      ∧ (∀ uid, balanceOf (withdrawalApprove dbPending "w1" (some "TXN1")) uid
          = balanceOf dbPending uid)
      ∧ findWithdrawal (withdrawalApprove dbPending "w1" (some "TXN1")) "w1"
          = some { wPending with status := .completed
                                 admin_transaction_ref := jsOrNull (some "TXN1") }
      ∧ ∀ wid2, wid2 ≠ "w1" →
          findWithdrawal (withdrawalApprove dbPending "w1" (some "TXN1")) wid2
            = findWithdrawal dbPending wid2 :=
  c7_approve_no_balance_effect dbPending "w1" (some "TXN1") wPending (by decide)

/-! ## Claim C8 -/

/-- Claim C8, counterexample: balance non-negativity does not hold in all
reachable states.  From the legitimate state with balance 1000 (all balances
non-negative), the admin operation `profileService.updateBalance` — one of the
profile updates the claim quantifies over — writes the caller-supplied value
verbatim and reaches a state with balance −5. -/
theorem c8_counterexample :
    balanceOf db1000 "u" = some 1000
      ∧ balanceOf (updateBalance db1000 "u" (-5)) "u" = some (-5)
      ∧ (-5 : Int) < 0 := by
  decide

/-- Claim C8, amended: the transaction flows preserve non-negativity —
`withdrawalService.create` (its debit is guarded by the balance check, and a
failed check changes nothing), `withdrawalService.reject` and
`withdrawalService.fail` and `depositService.approve` for any non-negative
amount — but `profileService.updateBalance` writes the caller-supplied value
verbatim, so it can set a negative balance directly. -/
theorem c8_nonneg_only_without_updateBalance (db : DB) (uid wid did : String)
    (amount netAmount charges : Int) (bank : BankDetails) (nid : String)
    (note : Option String) (reason : String) (b : Int) (p : Profile)
    (hnn : ∀ q ∈ db.profiles, 0 ≤ q.balance)
    (hamt : 0 ≤ amount)
    (hp : findProfile db uid = some p) :
    (∀ q ∈ (withdrawalCreate db uid amount netAmount charges bank nid).1.profiles,
        0 ≤ q.balance)
      ∧ (∀ q ∈ (withdrawalReject db wid amount uid note).1.profiles, 0 ≤ q.balance)
      ∧ (∀ q ∈ (withdrawalFail db wid amount uid reason).1.profiles, 0 ≤ q.balance)
      ∧ (∀ q ∈ (depositApprove db did uid amount).1.profiles, 0 ≤ q.balance)
      ∧ balanceOf (updateBalance db uid b) uid = some b := by
  refine ⟨?_, ?_, ?_, ?_, ?_⟩
  · intro q hq
    by_cases hh : p.account_status = AccountStatus.hold
    · simp only [withdrawalCreate, hp] at hq
      rw [if_pos hh] at hq
      exact hnn q hq
    · by_cases hlt : p.balance < amount
      · simp only [withdrawalCreate, hp] at hq
        rw [if_neg hh, if_pos hlt] at hq
        exact hnn q hq
      · simp only [withdrawalCreate, hp] at hq
        rw [if_neg hh, if_neg hlt] at hq
        refine setBalance_nonneg _ uid _ hnn ?_ q hq
        omega
  · exact refundStep_nonneg (rejectStatusStep db wid note) uid amount hnn hamt
  · exact refundStep_nonneg (failStatusStep db wid reason) uid amount hnn hamt
  · exact refundStep_nonneg (depositApproveStatusStep db did) uid amount hnn hamt
  · exact balanceOf_setBalance_self db uid b p hp

/-- Claim C8, witness: the amended theorem applied to the balance-1000 state
with a withdrawal of 200, id arguments of the fixtures, and `updateBalance`
writing −5. -/
theorem c8_witness :
    (∀ q ∈ (withdrawalCreate db1000 "u" 200 150 50 bank0 "w1").1.profiles,
        0 ≤ q.balance)
      ∧ (∀ q ∈ (withdrawalReject db1000 "w1" 200 "u" (some "n")).1.profiles,
          0 ≤ q.balance)
      ∧ (∀ q ∈ (withdrawalFail db1000 "w1" 200 "u" "r").1.profiles, 0 ≤ q.balance)
      ∧ (∀ q ∈ (depositApprove db1000 "d1" "u" 200).1.profiles, 0 ≤ q.balance)
      ∧ balanceOf (updateBalance db1000 "u" (-5)) "u" = some (-5) :=
  c8_nonneg_only_without_updateBalance db1000 "u" "w1" "d1" 200 150 50 bank0 "w1"
    (some "n") "r" (-5) profile1000 (by decide) (by decide) (by decide)

/-! ## Claim C9 -/

/-- Claim C9, counterexample: `settingsService.get` does not surface a store
error.  On a failing store read it swallows the error (after logging) and
resolves successfully with `null` instead of rejecting with the error. -/
theorem c9_counterexample :
    settingsGet (.error { message := "connection refused" }) = .ok none
      ∧ settingsGet (.error { message := "connection refused" })
          ≠ .error { message := "connection refused" } := by
  decide

/-- Claim C9, amended: `settingsService.update` and `settingsService.getAll`
rethrow a store error to the caller, but `settingsService.get` recovers
locally: on any store error it returns `null` (a successful result) rather
than surfacing the error. -/
theorem c9_settings_get_swallows_errors (e : StoreErr) :
    settingsGet (.error e) = .ok none
      ∧ settingsUpdate (.error e) = .error e
      ∧ settingsGetAll (.error e) = .error e :=
  ⟨rfl, rfl, rfl⟩

/-! ## Claim C10 -/

/-- Claim C10: `withdrawalService.uploadPaymentProof` performs no status
check: whatever the record's current status — terminal `rejected`/`failed`
and frozen `held` included — it stores the proof and sets the status to
`completed`, and it never touches the `profiles` table (no balance effect) or
the `deposits` table. -/
theorem c10_upload_proof_forces_completed (db : DB) (wid proof : String)
    (w : Withdrawal) (hw : findWithdrawal db wid = some w) :
    (uploadPaymentProof db wid proof).profiles = db.profiles
      ∧ (uploadPaymentProof db wid proof).deposits = db.deposits
      ∧ findWithdrawal (uploadPaymentProof db wid proof) wid
          = some { w with status := .completed, payment_proof := some proof } := by
  refine ⟨rfl, rfl, ?_⟩
  exact find?_map_update Withdrawal.id
    (fun v => { v with payment_proof := some proof, status := .completed })
    (fun _ => rfl) db.withdrawals wid w hw

/-- Claim C10, witness: uploading a proof for the withdrawal already in the
terminal state `rejected` moves it to `completed` and stores the proof, with
both other tables unchanged. -/
theorem c10_witness :
    (uploadPaymentProof dbRejected "w1" "img").profiles = dbRejected.profiles
      ∧ (uploadPaymentProof dbRejected "w1" "img").deposits = dbRejected.deposits
      ∧ findWithdrawal (uploadPaymentProof dbRejected "w1" "img") "w1"
          = some { wRejected with status := .completed
                                  payment_proof := some "img" } :=
  c10_upload_proof_forces_completed dbRejected "w1" "img" wRejected (by decide)

end TradeX
